import Mathlib

/-!
Verification of the klicker-api GraphQL entry layer (`src/schema.js` together with the
server bootstrap appended to it).  The file embeds, as Lean definitions translated from
the source:

* the resolver maps `resolvers.Query`, `resolvers.Mutation`, `resolvers.Subscription`
  (which resolvers are wrapped in `requireAuth` and which are exposed bare);
* the `typeDefs` field tables for `Query`, `Mutation` and `Subscription`;
* the `__resolveType` dispatch of `QuestionInstance_Results`;
* the `getToken` function of the express-jwt middleware configuration;
* the startup environment checks and listen call of the server bootstrap.

The resolver implementations themselves (`resolvers/sessions.js`, `services/accounts.js`,
`services/auth.js`, …) are not part of the source under verification; they are treated as
opaque parameters, except where a claim needs their behaviour, in which case they are
modelled from the specification (see the doc comments starting `Modelled from the spec:`).
-/

namespace Klicker

/-- The per-request context assembled by the middleware: `req.auth` is the decoded JWT
content attached by express-jwt, or `none` for an anonymous request. -/
structure Context where
  auth : Option String
deriving DecidableEq

/-- Error produced when the authenticated-owner predicate rejects a request. -/
inductive AuthError where
  | notAuthenticated
deriving DecidableEq

/-- A GraphQL resolver: takes the (parent, args) input bundle `A` and the request
context, and produces either an auth failure or a value of type `V`. -/
def Resolver (A V : Type) : Type := A → Context → Except AuthError V

/-- Modelled from the spec: `requireAuth` is imported from `services/accounts` (not under
`src/`); the spec treats it as the opaque external "authenticated owner" predicate that
must have passed before any owner-scoped operation runs.  Modelled as a resolver wrapper
that rejects a request carrying no authenticated user and otherwise delegates to the
wrapped resolver unchanged. -/
def requireAuth {A V : Type} (f : Resolver A V) : Resolver A V :=
  fun a ctx =>
    match ctx.auth with
    | some _ => f a ctx
    | none => Except.error AuthError.notAuthenticated

/-- The resolver functions imported at the top of `schema.js` from the `resolvers/`
modules.  Their bodies are not part of the source under verification, so they are kept
opaque as fields of this structure. -/
structure Imports (A V : Type) where
  allQuestions : Resolver A V
  allSessions : Resolver A V
  allTags : Resolver A V
  checkAvailability : Resolver A V
  joinSession : Resolver A V
  question : Resolver A V
  runningSession : Resolver A V
  session : Resolver A V
  authUser : Resolver A V
  activateAccount : Resolver A V
  archiveQuestions : Resolver A V
  addFeedback : Resolver A V
  deleteFeedback : Resolver A V
  addConfusionTS : Resolver A V
  addResponse : Resolver A V
  changePassword : Resolver A V
  createQuestion : Resolver A V
  createSession : Resolver A V
  createUser : Resolver A V
  deleteQuestions : Resolver A V
  deleteResponse : Resolver A V
  deleteSessions : Resolver A V
  endSession : Resolver A V
  login : Resolver A V
  logout : Resolver A V
  modifyQuestion : Resolver A V
  modifySession : Resolver A V
  modifyUser : Resolver A V
  pauseSession : Resolver A V
  cancelSession : Resolver A V
  requestAccountDeletion : Resolver A V
  resolveAccountDeletion : Resolver A V
  requestPassword : Resolver A V
  requestPresignedURL : Resolver A V
  startSession : Resolver A V
  updateSessionSettings : Resolver A V
  activateNextBlock : Resolver A V
  confusionAdded : Resolver A V
  feedbackAdded : Resolver A V

/-- The fields of the `Query` entry of the `resolvers` object. -/
structure QueryResolvers (A V : Type) where
  allQuestions : Resolver A V
  allSessions : Resolver A V
  allTags : Resolver A V
  checkAvailability : Resolver A V
  joinSession : Resolver A V
  question : Resolver A V
  runningSession : Resolver A V
  session : Resolver A V
  sessionPublic : Resolver A V
  user : Resolver A V

/-- The fields of the `Mutation` entry of the `resolvers` object. -/
structure MutationResolvers (A V : Type) where
  activateAccount : Resolver A V
  archiveQuestions : Resolver A V
  addFeedback : Resolver A V
  deleteFeedback : Resolver A V
  addConfusionTS : Resolver A V
  addResponse : Resolver A V
  changePassword : Resolver A V
  createQuestion : Resolver A V
  createSession : Resolver A V
  createUser : Resolver A V
  deleteQuestions : Resolver A V
  deleteResponse : Resolver A V
  deleteSessions : Resolver A V
  endSession : Resolver A V
  login : Resolver A V
  logout : Resolver A V
  modifyQuestion : Resolver A V
  modifySession : Resolver A V
  modifyUser : Resolver A V
  pauseSession : Resolver A V
  cancelSession : Resolver A V
  requestAccountDeletion : Resolver A V
  resolveAccountDeletion : Resolver A V
  requestPassword : Resolver A V
  requestPresignedURL : Resolver A V
  startSession : Resolver A V
  updateSessionSettings : Resolver A V
  activateNextBlock : Resolver A V

/-- The fields of the `Subscription` entry of the `resolvers` object. -/
structure SubscriptionResolvers (A V : Type) where
  confusionAdded : Resolver A V
  feedbackAdded : Resolver A V

/-- The three root entries of the `resolvers` object of `schema.js`. -/
structure ResolverMap (A V : Type) where
  Query : QueryResolvers A V
  Mutation : MutationResolvers A V
  Subscription : SubscriptionResolvers A V

/-- The `resolvers` object of `schema.js` (lines 133–184), transcribed field by field:
each field is either `requireAuth` applied to an imported resolver or the imported
resolver exposed bare, exactly as in the source. -/
def resolvers {A V : Type} (imp : Imports A V) : ResolverMap A V :=
  { Query :=
      { allQuestions := requireAuth imp.allQuestions
        allSessions := requireAuth imp.allSessions
        allTags := requireAuth imp.allTags
        checkAvailability := imp.checkAvailability
        joinSession := imp.joinSession
        question := requireAuth imp.question
        runningSession := requireAuth imp.runningSession
        session := requireAuth imp.session
        sessionPublic := imp.session
        user := requireAuth imp.authUser }
    Mutation :=
      { activateAccount := imp.activateAccount
        archiveQuestions := requireAuth imp.archiveQuestions
        addFeedback := imp.addFeedback
        deleteFeedback := requireAuth imp.deleteFeedback
        addConfusionTS := imp.addConfusionTS
        addResponse := imp.addResponse
        changePassword := requireAuth imp.changePassword
        createQuestion := requireAuth imp.createQuestion
        createSession := requireAuth imp.createSession
        createUser := imp.createUser
        deleteQuestions := requireAuth imp.deleteQuestions
        deleteResponse := requireAuth imp.deleteResponse
        deleteSessions := requireAuth imp.deleteSessions
        endSession := requireAuth imp.endSession
        login := imp.login
        logout := imp.logout
        modifyQuestion := requireAuth imp.modifyQuestion
        modifySession := requireAuth imp.modifySession
        modifyUser := requireAuth imp.modifyUser
        pauseSession := requireAuth imp.pauseSession
        cancelSession := requireAuth imp.cancelSession
        requestAccountDeletion := requireAuth imp.requestAccountDeletion
        resolveAccountDeletion := requireAuth imp.resolveAccountDeletion
        requestPassword := imp.requestPassword
        requestPresignedURL := requireAuth imp.requestPresignedURL
        startSession := requireAuth imp.startSession
        updateSessionSettings := requireAuth imp.updateSessionSettings
        activateNextBlock := requireAuth imp.activateNextBlock }
    Subscription :=
      { confusionAdded := imp.confusionAdded
        feedbackAdded := imp.feedbackAdded } }

/-- A concrete instantiation of the imported resolvers, used to evaluate the guard
structure at a specific input. -/
def dummyImports : Imports Unit Unit :=
  { allQuestions := fun _ _ => Except.ok ()
    allSessions := fun _ _ => Except.ok ()
    allTags := fun _ _ => Except.ok ()
    checkAvailability := fun _ _ => Except.ok ()
    joinSession := fun _ _ => Except.ok ()
    question := fun _ _ => Except.ok ()
    runningSession := fun _ _ => Except.ok ()
    session := fun _ _ => Except.ok ()
    authUser := fun _ _ => Except.ok ()
    activateAccount := fun _ _ => Except.ok ()
    archiveQuestions := fun _ _ => Except.ok ()
    addFeedback := fun _ _ => Except.ok ()
    deleteFeedback := fun _ _ => Except.ok ()
    addConfusionTS := fun _ _ => Except.ok ()
    addResponse := fun _ _ => Except.ok ()
    changePassword := fun _ _ => Except.ok ()
    createQuestion := fun _ _ => Except.ok ()
    createSession := fun _ _ => Except.ok ()
    createUser := fun _ _ => Except.ok ()
    deleteQuestions := fun _ _ => Except.ok ()
    deleteResponse := fun _ _ => Except.ok ()
    deleteSessions := fun _ _ => Except.ok ()
    endSession := fun _ _ => Except.ok ()
    login := fun _ _ => Except.ok ()
    logout := fun _ _ => Except.ok ()
    modifyQuestion := fun _ _ => Except.ok ()
    modifySession := fun _ _ => Except.ok ()
    modifyUser := fun _ _ => Except.ok ()
    pauseSession := fun _ _ => Except.ok ()
    cancelSession := fun _ _ => Except.ok ()
    requestAccountDeletion := fun _ _ => Except.ok ()
    resolveAccountDeletion := fun _ _ => Except.ok ()
    requestPassword := fun _ _ => Except.ok ()
    requestPresignedURL := fun _ _ => Except.ok ()
    startSession := fun _ _ => Except.ok ()
    updateSessionSettings := fun _ _ => Except.ok ()
    activateNextBlock := fun _ _ => Except.ok ()
    confusionAdded := fun _ _ => Except.ok ()
    feedbackAdded := fun _ _ => Except.ok () }

/-! ### The `typeDefs` field tables

The root types of the schema-language document of `schema.js` (lines 66–129),
transcribed entry by entry.  Argument and return types are kept as the literal
schema-language type strings (a trailing bang marks a non-null, i.e. required, type). -/

/-- One declared argument of a schema field: its name and its schema-language type. -/
structure FieldArg where
  name : String
  type : String
deriving DecidableEq

/-- One declared field of a root type: its name, arguments, and return type. -/
structure FieldDef where
  name : String
  args : List FieldArg
  ret : String
deriving DecidableEq

/-- A schema-language type string denotes a required (non-null) argument iff it carries a
trailing bang. -/
def requiredType (t : String) : Bool :=
  t.data.getLast? == some '!'

/-- Look a field up by name in a root-type field table. -/
def findField (fields : List FieldDef) (nm : String) : Option FieldDef :=
  fields.find? (fun f => f.name == nm)

/-- The `type Query` block of `typeDefs` (lines 78–90). -/
def queryFields : List FieldDef :=
  [ ⟨"activeInstances", [], "[QuestionInstance]!"⟩,
    ⟨"allQuestions", [], "[Question]!"⟩,
    ⟨"allSessions", [], "[Session]!"⟩,
    ⟨"allTags", [], "[Tag]!"⟩,
    ⟨"checkAvailability", [⟨"email", "String"⟩, ⟨"shortname", "String"⟩], "User_Availability!"⟩,
    ⟨"joinSession", [⟨"shortname", "String!"⟩], "Session_Public"⟩,
    ⟨"question", [⟨"id", "ID!"⟩], "Question"⟩,
    ⟨"runningSession", [], "Session"⟩,
    ⟨"session", [⟨"id", "ID!"⟩], "Session"⟩,
    ⟨"sessionPublic", [⟨"id", "ID!"⟩], "Session_PublicEvaluation"⟩,
    ⟨"user", [], "User"⟩ ]

/-- The `type Mutation` block of `typeDefs` (lines 92–121). -/
def mutationFields : List FieldDef :=
  [ ⟨"activateAccount", [⟨"activationToken", "String!"⟩], "String!"⟩,
    ⟨"activateNextBlock", [], "Session!"⟩,
    ⟨"addConfusionTS",
      [⟨"fp", "ID"⟩, ⟨"sessionId", "ID!"⟩, ⟨"difficulty", "Int!"⟩, ⟨"speed", "Int!"⟩],
      "String!"⟩,
    ⟨"addFeedback", [⟨"fp", "ID"⟩, ⟨"sessionId", "ID!"⟩, ⟨"content", "String!"⟩], "String!"⟩,
    ⟨"addResponse",
      [⟨"fp", "ID"⟩, ⟨"instanceId", "ID!"⟩, ⟨"response", "QuestionInstance_ResponseInput!"⟩],
      "String!"⟩,
    ⟨"archiveQuestions", [⟨"ids", "[ID!]!"⟩], "[Question!]!"⟩,
    ⟨"changePassword", [⟨"newPassword", "String!"⟩], "User!"⟩,
    ⟨"createQuestion", [⟨"question", "QuestionInput!"⟩], "Question!"⟩,
    ⟨"createSession", [⟨"session", "SessionInput!"⟩], "Session!"⟩,
    ⟨"createUser",
      [⟨"email", "String!"⟩, ⟨"password", "String!"⟩, ⟨"shortname", "String!"⟩,
        ⟨"institution", "String!"⟩, ⟨"useCase", "String"⟩],
      "User!"⟩,
    ⟨"deleteFeedback", [⟨"sessionId", "ID!"⟩, ⟨"feedbackId", "ID!"⟩], "Session!"⟩,
    ⟨"deleteQuestions", [⟨"ids", "[ID!]!"⟩], "String!"⟩,
    ⟨"deleteResponse", [⟨"instanceId", "ID!"⟩, ⟨"response", "String!"⟩], "String!"⟩,
    ⟨"deleteSessions", [⟨"ids", "[ID!]!"⟩], "String!"⟩,
    ⟨"endSession", [⟨"id", "ID!"⟩], "Session!"⟩,
    ⟨"login", [⟨"email", "String!"⟩, ⟨"password", "String!"⟩], "ID!"⟩,
    ⟨"logout", [], "String!"⟩,
    ⟨"modifyQuestion", [⟨"id", "ID!"⟩, ⟨"question", "QuestionModifyInput!"⟩], "Question!"⟩,
    ⟨"modifySession", [⟨"id", "ID!"⟩, ⟨"session", "SessionModifyInput!"⟩], "Session!"⟩,
    ⟨"modifyUser", [⟨"user", "User_Modify!"⟩], "User!"⟩,
    ⟨"pauseSession", [⟨"id", "ID!"⟩], "Session!"⟩,
    ⟨"cancelSession", [⟨"id", "ID!"⟩], "Session!"⟩,
    ⟨"requestAccountDeletion", [], "String!"⟩,
    ⟨"resolveAccountDeletion", [⟨"deletionToken", "String!"⟩], "String!"⟩,
    ⟨"requestPassword", [⟨"email", "String!"⟩], "String!"⟩,
    ⟨"requestPresignedURL", [⟨"fileType", "String!"⟩], "File_PresignedURL!"⟩,
    ⟨"startSession", [⟨"id", "ID!"⟩], "Session!"⟩,
    ⟨"updateSessionSettings",
      [⟨"sessionId", "ID!"⟩, ⟨"settings", "Session_SettingsInput!"⟩], "Session!"⟩ ]

/-- The `type Subscription` block of `typeDefs` (lines 123–126). -/
def subscriptionFields : List FieldDef :=
  [ ⟨"confusionAdded", [⟨"sessionId", "ID!"⟩], "Session_ConfusionTimestep"⟩,
    ⟨"feedbackAdded", [⟨"sessionId", "ID!"⟩], "Session_Feedback"⟩ ]

/-! ### The `QuestionInstance_Results.__resolveType` dispatch -/

/-- A results object as probed by `__resolveType`: whether its `FREE` field and its
`CHOICES` field are present and truthy. -/
structure ResultsObj where
  FREE : Bool
  CHOICES : Bool
deriving DecidableEq

/-- `QuestionInstance_Results.__resolveType` (lines 227–239): returns the concrete
GraphQL type name for a results object, or `none` when neither tag is present. -/
def resolveResultsType (obj : ResultsObj) : Option String :=
  if obj.FREE then some "FREEQuestionResults"
  else if obj.CHOICES then some "SCQuestionResults"
  else none

/-! ### The express-jwt middleware configuration -/

/-- JavaScript truthiness of a string value: the empty string is falsy. -/
def truthyStr (s : String) : Bool :=
  s != ""

/-- The cookies object attached by `cookie-parser`; `jwt` is its `jwt` entry when one was
sent. -/
structure Cookies where
  jwt : Option String
deriving DecidableEq

/-- The request headers; `authorization` is the `Authorization` header when present. -/
structure Headers where
  authorization : Option String
deriving DecidableEq

/-- The incoming request as seen by `getToken`: `cookies` is absent when `cookie-parser`
attached no object. -/
structure Req where
  cookies : Option Cookies
  headers : Headers
deriving DecidableEq

/-- JavaScript `String.prototype.split` with a single-character separator, at the
character level: `"".split(sep)` is `[""]`, and adjacent separators produce empty
pieces. -/
def jsSplit (sep : Char) : List Char → List (List Char)
  | [] => [[]]
  | c :: rest =>
    match jsSplit sep rest with
    | [] => if c = sep then [[], [c]] else [[c]]
    | w :: ws => if c = sep then [] :: w :: ws else (c :: w) :: ws

/-- The Authorization-header branch of `getToken` (lines 327–334): the header must be
truthy, its first space-separated word must be `Bearer`, and `isValidJWT` is consulted on
the whole header string with no secret argument; the token returned is the second
space-separated word (absent when the header has no second word).  `isValidJWT` lives in
`services/auth` (not under `src/`) and is kept as an opaque parameter taking the string
to check and an optional secret. -/
def getTokenFromHeader (isValidJWT : String → Option String → Bool) (req : Req) :
    Option String :=
  match req.headers.authorization with
  | some auth =>
    if truthyStr auth && ((jsSplit ' ' auth.data).headD [] == "Bearer".data)
        && isValidJWT auth none
    then ((jsSplit ' ' auth.data).get? 1).map String.mk
    else none
  | none => none

/-- `getToken` (lines 321–338): first tries the `jwt` cookie (present, truthy, and valid
against the configured secret), then falls back to the Authorization header, and returns
`none` when neither yields a token. -/
def getToken (isValidJWT : String → Option String → Bool) (jwtSecret : String)
    (req : Req) : Option String :=
  match req.cookies with
  | some c =>
    match c.jwt with
    | some jwt =>
      if truthyStr jwt && isValidJWT jwt (some jwtSecret) then some jwt
      else getTokenFromHeader isValidJWT req
    | none => getTokenFromHeader isValidJWT req
  | none => getTokenFromHeader isValidJWT req

/-- The statically configured options of the `expressJWT` middleware (lines 317–339),
apart from the secret and `getToken` themselves. -/
structure JwtMiddlewareOptions where
  credentialsRequired : Bool
  requestProperty : String
deriving DecidableEq

/-- The option values passed to `expressJWT` in the server bootstrap. -/
def expressJWTOptions : JwtMiddlewareOptions :=
  { credentialsRequired := false
    requestProperty := "auth" }

/-! ### Server startup -/

/-- JavaScript truthiness of an environment variable: absent or empty is falsy. -/
def truthyEnv (v : Option String) : Bool :=
  match v with
  | some s => s != ""
  | none => false

/-- The two environment variables consulted by the server bootstrap. -/
structure Env where
  MONGO_URL : Option String
  JWT_SECRET : Option String
deriving DecidableEq

/-- The observable top-level actions of the server bootstrap, in program order. -/
inductive StartupEvent where
  | warn (msg : String)
  | exitProcess (code : Nat)
  | mongooseConnect (url : String)
  | listen (port : Nat)
deriving DecidableEq

/-- The top-level statement sequence of the server bootstrap (lines 289–347): the
`MONGO_URL` check, the `JWT_SECRET` check, the `mongoose.connect` call, and the
`server.listen(3000)` call, as the trace of events the process performs.  `process.exit(1)`
terminates the process, so nothing follows it in the trace. -/
def startup (env : Env) : List StartupEvent :=
  if truthyEnv env.MONGO_URL = false then
    [StartupEvent.warn "> Error: Please pass the MONGO_URL as an environment variable.",
      StartupEvent.exitProcess 1]
  else if truthyEnv env.JWT_SECRET = false then
    [StartupEvent.warn "> Error: Please pass the JWT_SECRET as an environment variable.",
      StartupEvent.exitProcess 1]
  else
    [StartupEvent.mongooseConnect ("mongodb://" ++ env.MONGO_URL.getD ""),
      StartupEvent.listen 3000]

/-! ### The `joinSession` resolver, modelled from the spec -/

/-- Session lifecycle states (spec §4.1). -/
inductive SessionStatus where
  | CREATED
  | RUNNING
  | PAUSED
  | ENDED
  | CANCELLED
deriving DecidableEq

/-- The part of a stored session record that `joinSession` consults. -/
structure SessionRec where
  id : Nat
  shortname : String
  status : SessionStatus
deriving DecidableEq

/-- The read-restricted public projection (`Session_Public`) returned to joining
participants. -/
structure SessionPublic where
  id : Nat
  shortname : String
  status : SessionStatus
deriving DecidableEq

/-- The read-restricted public projection of a session record. -/
def publicProjection (s : SessionRec) : SessionPublic :=
  ⟨s.id, s.shortname, s.status⟩

/-- Lower-casing of a string for case-insensitive join-code comparison, at the character
level. -/
def lowerStr (s : String) : List Char :=
  s.data.map Char.toLower

/-- Modelled from the spec: the body of the `joinSession` resolver lives in
`resolvers/sessions.js`, which is not under `src/`; only its declaration
(`joinSession(shortname: String!): Session_Public`) and its unguarded wiring appear in
the source.  Spec §4.1 `joinPublic(code)`: case-insensitive lookup of the join code;
returns a read-restricted public projection only if the status is RUNNING or PAUSED;
otherwise returns not-found to avoid leaking session existence. -/
def joinSession (sessions : List SessionRec) (shortname : String) : Option SessionPublic :=
  match sessions.find? (fun s => lowerStr s.shortname == lowerStr shortname) with
  | some s =>
    if s.status = SessionStatus.RUNNING ∨ s.status = SessionStatus.PAUSED then
      some (publicProjection s)
    else none
  | none => none

/-! ## Claim theorems -/

/-- Claim C1: every owner-scoped write operation (createSession, startSession,
pauseSession, cancelSession, endSession, activateNextBlock, updateSessionSettings,
modifySession, deleteSessions, deleteResponse, deleteFeedback) is invocable only after
the authenticated-owner predicate `requireAuth` has passed — an anonymous request is
rejected with an auth error — while the three participant-issued write operations
(addResponse, addConfusionTS, addFeedback) are dispatched to the imported resolver
unchanged for every request, authenticated or not. -/
theorem mutation_guard_structure {A V : Type} (imp : Imports A V) (a : A) (ctx : Context)
    (hanon : ctx.auth = none) :
    ((resolvers imp).Mutation.createSession a ctx = Except.error AuthError.notAuthenticated ∧
      (resolvers imp).Mutation.startSession a ctx = Except.error AuthError.notAuthenticated ∧
      (resolvers imp).Mutation.pauseSession a ctx = Except.error AuthError.notAuthenticated ∧
      (resolvers imp).Mutation.cancelSession a ctx = Except.error AuthError.notAuthenticated ∧
      (resolvers imp).Mutation.endSession a ctx = Except.error AuthError.notAuthenticated ∧
      (resolvers imp).Mutation.activateNextBlock a ctx = Except.error AuthError.notAuthenticated ∧
      (resolvers imp).Mutation.updateSessionSettings a ctx = Except.error AuthError.notAuthenticated ∧
      (resolvers imp).Mutation.modifySession a ctx = Except.error AuthError.notAuthenticated ∧
      (resolvers imp).Mutation.deleteSessions a ctx = Except.error AuthError.notAuthenticated ∧
      (resolvers imp).Mutation.deleteResponse a ctx = Except.error AuthError.notAuthenticated ∧
      (resolvers imp).Mutation.deleteFeedback a ctx = Except.error AuthError.notAuthenticated) ∧
    (∀ ctx2 : Context,
      (resolvers imp).Mutation.addResponse a ctx2 = imp.addResponse a ctx2 ∧
      (resolvers imp).Mutation.addConfusionTS a ctx2 = imp.addConfusionTS a ctx2 ∧
      (resolvers imp).Mutation.addFeedback a ctx2 = imp.addFeedback a ctx2) := by
  obtain ⟨auth⟩ := ctx
  cases hanon
  exact ⟨⟨rfl, rfl, rfl, rfl, rfl, rfl, rfl, rfl, rfl, rfl, rfl⟩,
    fun _ => ⟨rfl, rfl, rfl⟩⟩

/-- Witness for C1 at the concrete anonymous request. -/
theorem mutation_guard_structure_witness :
    (((resolvers dummyImports).Mutation.createSession () ⟨none⟩ =
        Except.error AuthError.notAuthenticated ∧
      (resolvers dummyImports).Mutation.startSession () ⟨none⟩ =
        Except.error AuthError.notAuthenticated ∧
      (resolvers dummyImports).Mutation.pauseSession () ⟨none⟩ =
        Except.error AuthError.notAuthenticated ∧
      (resolvers dummyImports).Mutation.cancelSession () ⟨none⟩ =
        Except.error AuthError.notAuthenticated ∧
      (resolvers dummyImports).Mutation.endSession () ⟨none⟩ =
        Except.error AuthError.notAuthenticated ∧
      (resolvers dummyImports).Mutation.activateNextBlock () ⟨none⟩ =
        Except.error AuthError.notAuthenticated ∧
      (resolvers dummyImports).Mutation.updateSessionSettings () ⟨none⟩ =
        Except.error AuthError.notAuthenticated ∧
      (resolvers dummyImports).Mutation.modifySession () ⟨none⟩ =
        Except.error AuthError.notAuthenticated ∧
      (resolvers dummyImports).Mutation.deleteSessions () ⟨none⟩ =
        Except.error AuthError.notAuthenticated ∧
      (resolvers dummyImports).Mutation.deleteResponse () ⟨none⟩ =
        Except.error AuthError.notAuthenticated ∧
      (resolvers dummyImports).Mutation.deleteFeedback () ⟨none⟩ =
        Except.error AuthError.notAuthenticated) ∧
    (∀ ctx2 : Context,
      (resolvers dummyImports).Mutation.addResponse () ctx2 =
        dummyImports.addResponse () ctx2 ∧
      (resolvers dummyImports).Mutation.addConfusionTS () ctx2 =
        dummyImports.addConfusionTS () ctx2 ∧
      (resolvers dummyImports).Mutation.addFeedback () ctx2 =
        dummyImports.addFeedback () ctx2)) :=
  mutation_guard_structure dummyImports () ⟨none⟩ rfl

/-- Claim C2: among the read operations allSessions, runningSession, session,
joinSession, sessionPublic, exactly joinSession and sessionPublic are reachable by an
anonymous caller — they dispatch to the imported resolver with no guard — while the
remaining three reject an anonymous request with the authenticated-owner error. -/
theorem query_guard_structure {A V : Type} (imp : Imports A V) (a : A) (ctx : Context)
    (hanon : ctx.auth = none) :
    ((resolvers imp).Query.joinSession a ctx = imp.joinSession a ctx ∧
      (resolvers imp).Query.sessionPublic a ctx = imp.session a ctx) ∧
    ((resolvers imp).Query.allSessions a ctx = Except.error AuthError.notAuthenticated ∧
      (resolvers imp).Query.runningSession a ctx = Except.error AuthError.notAuthenticated ∧
      (resolvers imp).Query.session a ctx = Except.error AuthError.notAuthenticated) := by
  obtain ⟨auth⟩ := ctx
  cases hanon
  exact ⟨⟨rfl, rfl⟩, rfl, rfl, rfl⟩

/-- Witness for C2 at the concrete anonymous request. -/
theorem query_guard_structure_witness :
    (((resolvers dummyImports).Query.joinSession () ⟨none⟩ =
        dummyImports.joinSession () ⟨none⟩ ∧
      (resolvers dummyImports).Query.sessionPublic () ⟨none⟩ =
        dummyImports.session () ⟨none⟩) ∧
    ((resolvers dummyImports).Query.allSessions () ⟨none⟩ =
        Except.error AuthError.notAuthenticated ∧
      (resolvers dummyImports).Query.runningSession () ⟨none⟩ =
        Except.error AuthError.notAuthenticated ∧
      (resolvers dummyImports).Query.session () ⟨none⟩ =
        Except.error AuthError.notAuthenticated)) :=
  query_guard_structure dummyImports () ⟨none⟩ rfl

/-- Claim C3: the subscription operations confusionAdded and feedbackAdded enforce no
authentication at this layer: each dispatches to the imported channel resolver with no
`requireAuth` wrapper, so registration proceeds identically for every subscriber context,
independent of the authenticated-owner predicate. -/
theorem subscription_no_auth_guard {A V : Type} (imp : Imports A V) :
    (resolvers imp).Subscription.confusionAdded = imp.confusionAdded ∧
    (resolvers imp).Subscription.feedbackAdded = imp.feedbackAdded ∧
    ∀ (a : A) (ctx : Context),
      (resolvers imp).Subscription.confusionAdded a ctx = imp.confusionAdded a ctx ∧
      (resolvers imp).Subscription.feedbackAdded a ctx = imp.feedbackAdded a ctx :=
  ⟨rfl, rfl, fun _ _ => ⟨rfl, rfl⟩⟩

/-- Claim C8: the anonymous sessionPublic query and the authenticated session query are
resolved by the same underlying imported resolver: sessionPublic is that resolver bare,
and whenever the auth guard of the session query passes both queries compute identical
results. -/
theorem sessionPublic_refines_session {A V : Type} (imp : Imports A V) (a : A)
    (ctx : Context) (hauth : ctx.auth.isSome = true) :
    (resolvers imp).Query.sessionPublic = imp.session ∧
    (resolvers imp).Query.session a ctx = (resolvers imp).Query.sessionPublic a ctx := by
  obtain ⟨auth⟩ := ctx
  cases auth with
  | none => simp at hauth
  | some t => exact ⟨rfl, rfl⟩

/-- Witness for C8 at a concrete authenticated request. -/
theorem sessionPublic_refines_session_witness :
    (⟨some "user-1"⟩ : Context).auth.isSome = true ∧
    ((resolvers dummyImports).Query.sessionPublic = dummyImports.session ∧
      (resolvers dummyImports).Query.session () ⟨some "user-1"⟩ =
        (resolvers dummyImports).Query.sessionPublic () ⟨some "user-1"⟩) :=
  ⟨rfl, sessionPublic_refines_session dummyImports () ⟨some "user-1"⟩ rfl⟩

/-- Claim C4: the result aggregate of a question instance resolves to exactly one of two
shapes by a closed switch on the tag fixed at instance creation: for every results object
carrying at most one of the two tags, the FREE tag yields the free-text shape, the
CHOICES tag yields the choice-count shape, and the absence of both yields no shape. -/
theorem resolveResultsType_dispatch (obj : ResultsObj)
    (htag : ¬(obj.FREE = true ∧ obj.CHOICES = true)) :
    (obj.FREE = true → resolveResultsType obj = some "FREEQuestionResults") ∧
    (obj.CHOICES = true → resolveResultsType obj = some "SCQuestionResults") ∧
    (obj.FREE = false → obj.CHOICES = false → resolveResultsType obj = none) := by
  obtain ⟨f, c⟩ := obj
  cases f <;> cases c <;> simp_all [resolveResultsType]

/-- Witness for C4 at the two tagged objects and the untagged one. -/
theorem resolveResultsType_dispatch_witness :
    (¬((ResultsObj.mk true false).FREE = true ∧ (ResultsObj.mk true false).CHOICES = true) ∧
      resolveResultsType ⟨true, false⟩ = some "FREEQuestionResults") ∧
    (¬((ResultsObj.mk false true).FREE = true ∧ (ResultsObj.mk false true).CHOICES = true) ∧
      resolveResultsType ⟨false, true⟩ = some "SCQuestionResults") ∧
    resolveResultsType ⟨false, false⟩ = none :=
  ⟨⟨by decide, (resolveResultsType_dispatch ⟨true, false⟩ (by decide)).1 rfl⟩,
    ⟨by decide, (resolveResultsType_dispatch ⟨false, true⟩ (by decide)).2.1 rfl⟩,
    (resolveResultsType_dispatch ⟨false, false⟩ (by decide)).2.2 rfl rfl⟩

/-- Claim C5: each of the fourteen named write operations exists 1:1 as an exposed
mutation field of the schema, with addConfusionTS declared with the (fp, sessionId,
difficulty, speed) arguments and addFeedback with the (fp, sessionId, content)
arguments. -/
theorem mutation_typedefs_cover_write_operations :
    (findField mutationFields "createSession").isSome = true ∧
    (findField mutationFields "startSession").isSome = true ∧
    (findField mutationFields "pauseSession").isSome = true ∧
    (findField mutationFields "cancelSession").isSome = true ∧
    (findField mutationFields "endSession").isSome = true ∧
    (findField mutationFields "activateNextBlock").isSome = true ∧
    (findField mutationFields "updateSessionSettings").isSome = true ∧
    (findField mutationFields "modifySession").isSome = true ∧
    (findField mutationFields "deleteSessions").isSome = true ∧
    (findField mutationFields "addResponse").isSome = true ∧
    (findField mutationFields "deleteResponse").isSome = true ∧
    (findField mutationFields "deleteFeedback").isSome = true ∧
    findField mutationFields "addConfusionTS" =
      some ⟨"addConfusionTS",
        [⟨"fp", "ID"⟩, ⟨"sessionId", "ID!"⟩, ⟨"difficulty", "Int!"⟩, ⟨"speed", "Int!"⟩],
        "String!"⟩ ∧
    findField mutationFields "addFeedback" =
      some ⟨"addFeedback", [⟨"fp", "ID"⟩, ⟨"sessionId", "ID!"⟩, ⟨"content", "String!"⟩],
        "String!"⟩ := by
  decide

/-- Claim C6: the schema exposes exactly two subscription channels, confusionAdded and
feedbackAdded, each parameterized by a single required sessionId argument. -/
theorem subscription_typedefs_two_channels :
    subscriptionFields.map (fun f => f.name) = ["confusionAdded", "feedbackAdded"] ∧
    subscriptionFields.length = 2 ∧
    (∀ f ∈ subscriptionFields,
      f.args.length = 1 ∧
      ∀ arg ∈ f.args, arg.name = "sessionId" ∧ requiredType arg.type = true) := by
  decide

/-- Claim C7: joinSession, keyed by the short join code, returns the read-restricted
public projection exactly when the matching session's status is RUNNING or PAUSED, and
otherwise (terminal or freshly created status, or no matching session) returns not-found
rather than any session payload; the schema moreover declares its return type
`Session_Public` nullable.  The resolver body is modelled from the spec (see
`joinSession`). -/
theorem joinSession_only_running_or_paused (sessions : List SessionRec) (code : String) :
    (∀ p, joinSession sessions code = some p →
      ∃ s, sessions.find? (fun t => lowerStr t.shortname == lowerStr code) = some s ∧
        (s.status = SessionStatus.RUNNING ∨ s.status = SessionStatus.PAUSED) ∧
        p = publicProjection s) ∧
    (∀ s, sessions.find? (fun t => lowerStr t.shortname == lowerStr code) = some s →
      ¬(s.status = SessionStatus.RUNNING ∨ s.status = SessionStatus.PAUSED) →
      joinSession sessions code = none) ∧
    (sessions.find? (fun t => lowerStr t.shortname == lowerStr code) = none →
      joinSession sessions code = none) ∧
    findField queryFields "joinSession" =
      some ⟨"joinSession", [⟨"shortname", "String!"⟩], "Session_Public"⟩ ∧
    requiredType "Session_Public" = false := by
  refine ⟨?_, ?_, ?_, by decide, by decide⟩
  · intro p hp
    unfold joinSession at hp
    cases hfind : sessions.find? (fun t => lowerStr t.shortname == lowerStr code) with
    | none =>
      rw [hfind] at hp
      cases hp
    | some s =>
      rw [hfind] at hp
      have hp2 : (if s.status = SessionStatus.RUNNING ∨ s.status = SessionStatus.PAUSED
          then some (publicProjection s) else none) = some p := hp
      by_cases hst : s.status = SessionStatus.RUNNING ∨ s.status = SessionStatus.PAUSED
      · rw [if_pos hst] at hp2
        exact ⟨s, rfl, hst, (Option.some.inj hp2).symm⟩
      · rw [if_neg hst] at hp2
        cases hp2
  · intro s hfind hst
    unfold joinSession
    rw [hfind]
    exact if_neg hst
  · intro hfind
    unfold joinSession
    rw [hfind]

/-- Witness for C7: a RUNNING session is joinable, a CREATED one yields not-found. -/
theorem joinSession_only_running_or_paused_witness :
    joinSession [⟨2, "xyz", SessionStatus.CREATED⟩] "XYZ" = none ∧
    joinSession [⟨1, "AbC", SessionStatus.RUNNING⟩] "abc" =
      some ⟨1, "AbC", SessionStatus.RUNNING⟩ :=
  ⟨(joinSession_only_running_or_paused [⟨2, "xyz", SessionStatus.CREATED⟩] "XYZ").2.1
      ⟨2, "xyz", SessionStatus.CREATED⟩ (by decide) (by decide),
    by decide⟩

/-- Helper: when no valid Bearer authorization header is present, the header branch of
`getToken` yields no token. -/
theorem getTokenFromHeader_eq_none (isValidJWT : String → Option String → Bool) (req : Req)
    (h : ∀ auth, req.headers.authorization = some auth →
      (truthyStr auth && ((jsSplit ' ' auth.data).headD [] == "Bearer".data)
        && isValidJWT auth none) = false) :
    getTokenFromHeader isValidJWT req = none := by
  obtain ⟨cookies, ⟨authorization⟩⟩ := req
  cases authorization with
  | none => rfl
  | some auth =>
    have hc := h auth rfl
    have heq : getTokenFromHeader isValidJWT ⟨cookies, ⟨some auth⟩⟩ =
        (if truthyStr auth && ((jsSplit ' ' auth.data).headD [] == "Bearer".data)
            && isValidJWT auth none
         then ((jsSplit ' ' auth.data).get? 1).map String.mk else none) := rfl
    rw [heq, hc]
    simp

/-- Claim C9: token extraction prefers a valid JWT cookie over the Authorization header —
a present, truthy, valid cookie token is returned even when a Bearer header is also
present — and when neither a valid cookie nor a valid Bearer header is present `getToken`
returns no token; the middleware is configured with `credentialsRequired = false`, so the
request proceeds unauthenticated and anonymous operations such as joinSession stay
reachable. -/
theorem getToken_cookie_preference (isValidJWT : String → Option String → Bool)
    (secret : String) :
    (∀ (req : Req) (c : Cookies) (jwt : String), req.cookies = some c → c.jwt = some jwt →
      truthyStr jwt = true → isValidJWT jwt (some secret) = true →
      getToken isValidJWT secret req = some jwt) ∧
    (∀ req : Req,
      (∀ (c : Cookies) (jwt : String), req.cookies = some c → c.jwt = some jwt →
        (truthyStr jwt && isValidJWT jwt (some secret)) = false) →
      (∀ auth, req.headers.authorization = some auth →
        (truthyStr auth && ((jsSplit ' ' auth.data).headD [] == "Bearer".data)
          && isValidJWT auth none) = false) →
      getToken isValidJWT secret req = none) ∧
    expressJWTOptions.credentialsRequired = false ∧
    (∀ (imp : Imports Unit Unit) (a : Unit),
      (resolvers imp).Query.joinSession a ⟨none⟩ = imp.joinSession a ⟨none⟩) := by
  refine ⟨?_, ?_, rfl, fun imp a => rfl⟩
  · intro req c jwt hc hjwt htr hval
    obtain ⟨cookies, headers⟩ := req
    cases cookies with
    | none => exact Option.noConfusion hc
    | some c2 =>
      have hc2 : c2 = c := Option.some.inj hc
      have hj2 : c2.jwt = some jwt := by rw [hc2]; exact hjwt
      obtain ⟨cjwt⟩ := c2
      cases cjwt with
      | none => exact Option.noConfusion hj2
      | some j =>
        have hjj : j = jwt := Option.some.inj hj2
        have heq : getToken isValidJWT secret ⟨some ⟨some j⟩, headers⟩ =
            (if truthyStr j && isValidJWT j (some secret) then some j
             else getTokenFromHeader isValidJWT ⟨some ⟨some j⟩, headers⟩) := rfl
        rw [heq, hjj, htr, hval]
        simp
  · intro req hcookie hheader
    have hdr := getTokenFromHeader_eq_none isValidJWT req hheader
    obtain ⟨cookies, headers⟩ := req
    cases cookies with
    | none => exact hdr
    | some c =>
      obtain ⟨cjwt⟩ := c
      cases cjwt with
      | none => exact hdr
      | some jwt =>
        have hc := hcookie ⟨some jwt⟩ jwt rfl rfl
        have heq : getToken isValidJWT secret ⟨some ⟨some jwt⟩, headers⟩ =
            (if truthyStr jwt && isValidJWT jwt (some secret) then some jwt
             else getTokenFromHeader isValidJWT ⟨some ⟨some jwt⟩, headers⟩) := rfl
        rw [heq, hc]
        simpa using hdr

/-- A concrete validity predicate used to evaluate `getToken` at specific requests: it
accepts the cookie token and the full demo Bearer header. -/
def demoIsValidJWT : String → Option String → Bool :=
  fun t _ => t == "cookie-token" || t == "Bearer header-token"

/-- Witness for C9: with a valid cookie and a simultaneously valid Bearer header the
cookie token wins; with neither, no token is extracted. -/
theorem getToken_cookie_preference_witness :
    getToken demoIsValidJWT "s3cret"
      ⟨some ⟨some "cookie-token"⟩, ⟨some "Bearer header-token"⟩⟩ = some "cookie-token" ∧
    getToken demoIsValidJWT "s3cret" ⟨none, ⟨none⟩⟩ = none ∧
    getTokenFromHeader demoIsValidJWT
      ⟨some ⟨some "cookie-token"⟩, ⟨some "Bearer header-token"⟩⟩ = some "header-token" :=
  ⟨(getToken_cookie_preference demoIsValidJWT "s3cret").1
      ⟨some ⟨some "cookie-token"⟩, ⟨some "Bearer header-token"⟩⟩ ⟨some "cookie-token"⟩
      "cookie-token" rfl rfl (by decide) (by decide),
    (getToken_cookie_preference demoIsValidJWT "s3cret").2.1 ⟨none, ⟨none⟩⟩
      (by intro c jwt hc hj; cases hc)
      (by intro auth ha; cases ha),
    by decide⟩

/-- Claim C10: the server bootstrap exits with code 1 after a warning when `MONGO_URL`
or `JWT_SECRET` is missing, performing no database connection and never reaching the
listener; only when both are set does the startup trace connect to the database and
listen on port 3000. -/
theorem startup_requires_env :
    (∀ env : Env, env.MONGO_URL = none →
      startup env =
        [StartupEvent.warn "> Error: Please pass the MONGO_URL as an environment variable.",
          StartupEvent.exitProcess 1]) ∧
    (∀ env : Env, truthyEnv env.MONGO_URL = true → env.JWT_SECRET = none →
      startup env =
        [StartupEvent.warn "> Error: Please pass the JWT_SECRET as an environment variable.",
          StartupEvent.exitProcess 1]) ∧
    (∀ env : Env, (env.MONGO_URL = none ∨ env.JWT_SECRET = none) →
      (∀ u, StartupEvent.mongooseConnect u ∉ startup env) ∧
      (∀ p, StartupEvent.listen p ∉ startup env) ∧
      StartupEvent.exitProcess 1 ∈ startup env) ∧
    (∀ env : Env, truthyEnv env.MONGO_URL = true → truthyEnv env.JWT_SECRET = true →
      startup env =
        [StartupEvent.mongooseConnect ("mongodb://" ++ env.MONGO_URL.getD ""),
          StartupEvent.listen 3000]) ∧
    (∀ env : Env, StartupEvent.listen 3000 ∈ startup env →
      truthyEnv env.MONGO_URL = true ∧ truthyEnv env.JWT_SECRET = true) := by
  refine ⟨?_, ?_, ?_, ?_, ?_⟩
  · intro env h
    obtain ⟨m, j⟩ := env
    obtain rfl : m = none := h
    simp [startup, truthyEnv]
  · intro env hm h
    obtain ⟨m, j⟩ := env
    obtain rfl : j = none := h
    simp only [truthyEnv] at hm
    simp [startup, truthyEnv, hm]
  · intro env h
    obtain ⟨m, j⟩ := env
    rcases h with h | h
    · obtain rfl : m = none := h
      simp [startup, truthyEnv]
    · obtain rfl : j = none := h
      cases m with
      | none => simp [startup, truthyEnv]
      | some s =>
        by_cases hs : s = ""
        · subst hs
          simp [startup, truthyEnv]
        · simp [startup, truthyEnv, hs]
  · intro env hm hj
    obtain ⟨m, j⟩ := env
    simp only [truthyEnv] at hm hj
    simp [startup, truthyEnv, hm, hj]
  · intro env hmem
    obtain ⟨m, j⟩ := env
    cases hm : truthyEnv m <;> cases hj : truthyEnv j <;> simp_all [startup]

/-- Witness for C10 at three concrete environments. -/
theorem startup_requires_env_witness :
    startup ⟨none, some "s3cret"⟩ =
      [StartupEvent.warn "> Error: Please pass the MONGO_URL as an environment variable.",
        StartupEvent.exitProcess 1] ∧
    startup ⟨some "localhost:27017", none⟩ =
      [StartupEvent.warn "> Error: Please pass the JWT_SECRET as an environment variable.",
        StartupEvent.exitProcess 1] ∧
    startup ⟨some "localhost:27017", some "s3cret"⟩ =
      [StartupEvent.mongooseConnect "mongodb://localhost:27017",
        StartupEvent.listen 3000] :=
  ⟨startup_requires_env.1 ⟨none, some "s3cret"⟩ rfl,
    startup_requires_env.2.1 ⟨some "localhost:27017", none⟩ (by decide) rfl,
    by
      rw [startup_requires_env.2.2.2.1 ⟨some "localhost:27017", some "s3cret"⟩
        (by decide) (by decide)]
      decide⟩

end Klicker
